import Mathlib

/-
A shallow embedding of `init.py` from the proxmox-ve-toolkit repository.

The script is a project bootstrapper.  Its observable behaviour consists of
filesystem operations under the project root, lines printed to standard
output, and external process invocations.  We model:

  * the filesystem under the project root as an association list from
    relative paths (lists of path components) to entries (file-with-content
    or directory); the project root itself is an implicit directory;
  * printed output as a list of strings, one per `print` call;
  * external processes as a trace of invoked command lines together with an
    oracle `Env` saying which command lines exit successfully; `subprocess.run`
    with `check=True` raises `CalledProcessError` exactly when the oracle
    says the command fails.  The only external process whose effect on the
    modelled part of the filesystem matters is `python -m venv`, which
    ensures the virtual-environment directory exists; the other commands
    (pip installs, pre-commit install) act outside the modelled tree.
  * Python exceptions as an `Except` value carrying the error and the state
    at the moment of the raise (prints made before the raise are kept).

Each method of the `ProjectInitializer` class becomes a function from a
state to `Except (Err × St) St`, and `run` / `main` compose them exactly as
the source does, including the try/except handlers.
-/

/-- Filesystem entry: a regular file with its text content, or a directory.
Nesting is represented through paths, not inside the entry. -/
inductive Entry where
  | file (content : String) : Entry
  | dir : Entry
  deriving DecidableEq, Repr

/-- A path relative to the project root, as a list of components. -/
abbrev FsPath := List String

/-- The filesystem under the project root: an association list, where the
first binding of a path wins (later writes cons in front). -/
abbrev FS := List (FsPath × Entry)

/-- Look a path up in the filesystem. -/
def fsLookup : FS → FsPath → Option Entry
  | [], _ => none
  | (q, e) :: rest, p => if p = q then some e else fsLookup rest p

/-- Write (create or overwrite) an entry at a path. -/
def fsSet (fs : FS) (p : FsPath) (e : Entry) : FS := (p, e) :: fs

/-- `Path.exists()` of the source: the path has an entry. -/
def fsExists (fs : FS) (p : FsPath) : Bool := (fsLookup fs p).isSome

/-- The path exists and is a directory. -/
def isDirAt (fs : FS) (p : FsPath) : Bool :=
  match fsLookup fs p with
  | some Entry.dir => true
  | _ => false

/-- The parent directory of the path exists (the project root, for
single-component paths, always exists). -/
def parentOk (fs : FS) (p : FsPath) : Bool :=
  match p with
  | [] => false
  | [_] => true
  | ps => isDirAt fs ps.dropLast

/-- Program state: modelled filesystem, printed lines, invoked commands. -/
structure St where
  fs : FS
  out : List String
  procs : List (List String)
  deriving DecidableEq, Repr

/-- A Python exception: `subprocess.CalledProcessError` from a `check=True`
invocation, or any other exception (carrying its message). -/
inductive Err where
  | calledProcessError (cmd : List String) : Err
  | otherError (msg : String) : Err
  deriving DecidableEq, Repr

/-- Result of a step: normal return with the new state, or a raised
exception together with the state at the raise. -/
abbrev Res := Except (Err × St) St

/-- Oracle for external processes: which command lines exit with status 0. -/
abbrev Env := List String → Bool

/-- One `print(...)` call. -/
def print1 (s : String) (st : St) : St := { st with out := st.out ++ [s] }

/-- `str()` of a path relative to the project root. -/
def pathStr (p : FsPath) : String := String.intercalate "/" p

/-- Models `sys.executable`. -/
def pyExe : String := "python3"

/-- `self.venv_name` from `ProjectInitializer.__init__`. -/
def venvName : String := ".venv"

/-- The command line `[sys.executable, "-m", "venv", str(venv_path)]`. -/
def venvCmd : List String := [pyExe, "-m", "venv", pathStr [venvName]]

/-- Effect of a successful external command on the modelled filesystem:
`python -m venv` ensures the virtual-environment directory exists; every
other command acts outside the modelled tree. -/
def procFx (cmd : List String) (fs : FS) : FS :=
  if cmd = venvCmd then
    if fsExists fs [venvName] then fs else fsSet fs [venvName] Entry.dir
  else fs

/-- `subprocess.run(cmd, check=True)`: record the invocation; on oracle
success apply the command effect, on failure raise `CalledProcessError`. -/
def runProc (env : Env) (cmd : List String) (st : St) : Res :=
  let st1 : St := { st with procs := st.procs ++ [cmd] }
  if env cmd then Except.ok { st1 with fs := procFx cmd st1.fs }
  else Except.error (Err.calledProcessError cmd, st1)

/-- `Path.mkdir(exist_ok=True)`: no-op on an existing directory, raises
`FileExistsError` if the path exists and is not a directory, raises
`FileNotFoundError` if the parent is missing. -/
def mkdirExistOk (st : St) (p : FsPath) : Res :=
  match fsLookup st.fs p with
  | some Entry.dir => Except.ok st
  | some (Entry.file _) => Except.error (Err.otherError "FileExistsError", st)
  | none =>
      if parentOk st.fs p then Except.ok { st with fs := fsSet st.fs p Entry.dir }
      else Except.error (Err.otherError "FileNotFoundError", st)

/-- `Path.touch()`: create an empty file when the path is missing, leave an
existing entry untouched (only its timestamp changes, which we do not
model); raises when the parent is missing. -/
def touchPath (st : St) (p : FsPath) : Res :=
  match fsLookup st.fs p with
  | some _ => Except.ok st
  | none =>
      if parentOk st.fs p then
        Except.ok { st with fs := fsSet st.fs p (Entry.file "") }
      else Except.error (Err.otherError "FileNotFoundError", st)

/-- `Path.write_text(c)`: write the file, raising when the parent directory
is missing or the path is an existing directory. -/
def writeText (st : St) (p : FsPath) (c : String) : Res :=
  if parentOk st.fs p then
    match fsLookup st.fs p with
    | some Entry.dir => Except.error (Err.otherError "IsADirectoryError", st)
    | _ => Except.ok { st with fs := fsSet st.fs p (Entry.file c) }
  else Except.error (Err.otherError "FileNotFoundError", st)

/-- `shutil.copy(src, dst)`: read the source file and write its content to
the destination; raises when the source is not a regular file. -/
def copyFile (st : St) (src dst : FsPath) : Res :=
  match fsLookup st.fs src with
  | some (Entry.file c) => writeText st dst c
  | _ => Except.error (Err.otherError "copy: source is not a regular file", st)

/-- `ProjectInitializer.get_pip_command`. -/
def get_pip_command (osType : String) : String :=
  if osType = "Windows" then pathStr [venvName, "Scripts", "pip"]
  else pathStr [venvName, "bin", "pip"]

/-- `ProjectInitializer.create_virtual_environment`. -/
def create_virtual_environment (env : Env) (st : St) : Res :=
  let st := print1 "📦 Creating virtual environment..." st
  if fsExists st.fs [venvName] then
    Except.ok (print1 ("✅ Virtual environment already exists at " ++ pathStr [venvName]) st)
  else
    match runProc env venvCmd st with
    | Except.error e => Except.error e
    | Except.ok st1 =>
        Except.ok (print1 ("✅ Virtual environment created at " ++ pathStr [venvName]) st1)

/-- The command line upgrading pip, `[pip_cmd, "install", "--upgrade", "pip"]`. -/
def pipUpgradeCmd (osType : String) : List String :=
  [get_pip_command osType, "install", "--upgrade", "pip"]

/-- `ProjectInitializer.install_dependencies`. -/
def install_dependencies (osType : String) (env : Env) (st : St) : Res :=
  let st := print1 "📥 Installing dependencies..." st
  match runProc env (pipUpgradeCmd osType) st with
  | Except.error e => Except.error e
  | Except.ok st1 =>
      if fsExists st1.fs ["requirements.txt"] then
        match runProc env [get_pip_command osType, "install", "-r", pathStr ["requirements.txt"]] st1 with
        | Except.error e => Except.error e
        | Except.ok st2 => Except.ok (print1 "✅ Dependencies installed successfully" st2)
      else Except.ok (print1 "⚠️  No requirements.txt found" st1)

/-- `ProjectInitializer.setup_environment_file`. -/
def setup_environment_file (st : St) : Res :=
  let st := print1 "🔧 Setting up environment file..." st
  if fsExists st.fs [".env"] then
    Except.ok (print1 "✅ .env file already exists" st)
  else if fsExists st.fs [".env.example"] then
    match copyFile st [".env.example"] [".env"] with
    | Except.error e => Except.error e
    | Except.ok st1 =>
        Except.ok (print1 "⚠️  Please update .env with your actual API keys"
          (print1 "✅ Created .env file from .env.example" st1))
  else Except.ok (print1 "⚠️  No .env.example found" st)

/-- The hardcoded directory list of `create_project_directories`. -/
def directoriesList : List String := ["src", "tests", "scripts", "data", ".claude"]

/-- One iteration of the loop in `create_project_directories`: make the
directory, then touch `__init__.py` inside `src` and `tests`. -/
def dirStep (d : String) (st : St) : Res :=
  match mkdirExistOk st [d] with
  | Except.error e => Except.error e
  | Except.ok st1 =>
      if d = "src" ∨ d = "tests" then touchPath st1 [d, "__init__.py"]
      else Except.ok st1

/-- The loop of `create_project_directories` over the directory list. -/
def dirLoop : List String → St → Res
  | [], st => Except.ok st
  | d :: rest, st =>
      match dirStep d st with
      | Except.error e => Except.error e
      | Except.ok st1 => dirLoop rest st1

/-- `ProjectInitializer.create_project_directories`. -/
def create_project_directories (st : St) : Res :=
  let st := print1 "📁 Creating project directories..." st
  match dirLoop directoriesList st with
  | Except.error e => Except.error e
  | Except.ok st1 => Except.ok (print1 "✅ Project directories created" st1)

/-- The literal `.pre-commit-config.yaml` content written by the source. -/
def preCommitContent : String :=
  "repos:\n  - repo: https://github.com/psf/black\n    rev: v25.1.0\n    hooks:\n      - id: black\n        language_version: python3\n  - repo: https://github.com/pre-commit/mirrors-mypy\n    rev: v1.5.0\n    hooks:\n      - id: mypy\n        additional_dependencies: [types-requests]\n"

/-- Models Python `str(e)` for the exception caught in `setup_git_hooks`. -/
def errStr : Err → String
  | Err.calledProcessError cmd =>
      "Command " ++ String.intercalate " " cmd ++ " returned non-zero exit status 1."
  | Err.otherError m => m

/-- The warning printed by the `except` clause of `setup_git_hooks`. -/
def gitHooksWarn (e : Err) (st : St) : St :=
  print1 ("⚠️  Could not set up git hooks: " ++ errStr e) st

/-- The pre-commit executable path chosen by the OS branch in
`setup_git_hooks`. -/
def preCommitCmd (osType : String) : String :=
  if osType = "Windows" then pathStr [venvName, "Scripts", "pre-commit"]
  else pathStr [venvName, "bin", "pre-commit"]

/-- `ProjectInitializer.setup_git_hooks`.  The whole body is wrapped in
`try/except Exception`, so this function never raises: every failure turns
into a printed warning and a normal return. -/
def setup_git_hooks (osType : String) (env : Env) (st : St) : Res :=
  let st := print1 "🪝 Setting up git hooks..." st
  match runProc env [get_pip_command osType, "install", "pre-commit"] st with
  | Except.error (e, st1) => Except.ok (gitHooksWarn e st1)
  | Except.ok st1 =>
      let cfgStep : Res :=
        if fsExists st1.fs [".pre-commit-config.yaml"] then Except.ok st1
        else writeText st1 [".pre-commit-config.yaml"] preCommitContent
      match cfgStep with
      | Except.error (e, st2) => Except.ok (gitHooksWarn e st2)
      | Except.ok st2 =>
          match runProc env [preCommitCmd osType, "install"] st2 with
          | Except.error (e, st3) => Except.ok (gitHooksWarn e st3)
          | Except.ok st3 => Except.ok (print1 "✅ Git hooks installed" st3)

/-- The literal `CLAUDE.md` content written by the source. -/
def claudeContent : String :=
  "# Project-specific Claude Configuration\n\n## Project Overview\nAI Code Assist Boilerplate - A foundation for AI-assisted development\n\n## Key Technologies\n- Python 3.7+\n- PowerShell 7.0+\n- Claude CLI\n- Gemini CLI\n\n## Development Guidelines\n1. Follow PEP 8 for Python code\n2. Use type hints for all functions\n3. Write comprehensive docstrings\n4. Maintain cross-platform compatibility\n\n## Project Structure\n- `/src` - Source code\n- `/tests` - Test files\n- `/scripts` - Utility scripts\n- `/configs` - Configuration files\n- `/docs` - Documentation\n\n## Testing\nRun tests with: `pytest`\nRun with coverage: `pytest --cov=src`\n\n## Code Quality\n- Format: `black .`\n- Lint: `flake8`\n- Type check: `mypy src/`\n"

/-- `ProjectInitializer.create_claude_config`. -/
def create_claude_config (st : St) : Res :=
  let st := print1 "🤖 Setting up Claude configuration..." st
  if fsExists st.fs [".claude", "CLAUDE.md"] then
    Except.ok (print1 "✅ Claude configuration already exists" st)
  else
    match writeText st [".claude", "CLAUDE.md"] claudeContent with
    | Except.error e => Except.error e
    | Except.ok st1 => Except.ok (print1 "✅ Claude configuration created" st1)

/-- `ProjectInitializer.print_next_steps` (pure printing). -/
def print_next_steps (osType : String) (st : St) : St :=
  let st := print1 "\n🎉 Project initialization complete!" st
  let st := print1 "\n📋 Next steps:" st
  let st := print1 "1. Update .env file with your API keys" st
  let st :=
    if osType = "Windows" then
      print1 ("2. Activate virtual environment: .\\" ++ venvName ++ "\\Scripts\\activate") st
    else
      print1 ("2. Activate virtual environment: source " ++ venvName ++ "/bin/activate") st
  let st := print1 "3. Run tests: pytest" st
  print1 "4. Start developing! 🚀" st

/-- The seven statements of the `try` block of `ProjectInitializer.run`,
in source order. -/
def step_list (osType : String) : List (Env → St → Res) :=
  [ fun env st => create_virtual_environment env st,
    fun env st => install_dependencies osType env st,
    fun _ st => setup_environment_file st,
    fun _ st => create_project_directories st,
    fun env st => setup_git_hooks osType env st,
    fun _ st => create_claude_config st,
    fun _ st => Except.ok (print_next_steps osType st) ]

/-- Run a list of statements in order, stopping at the first raise. -/
def seqSteps : List (Env → St → Res) → Env → St → Res
  | [], _, st => Except.ok st
  | s :: rest, env, st =>
      match s env st with
      | Except.ok st1 => seqSteps rest env st1
      | Except.error e => Except.error e

/-- The banner printed at the top of `run`. -/
def bannerMsg : String := "🚀 Initializing AI Code Assist Boilerplate...\n"

/-- The messages of the two `except` handlers of `run`. -/
def errMsg : Err → String
  | Err.calledProcessError cmd =>
      "\n❌ Error during initialization: " ++ errStr (Err.calledProcessError cmd)
  | Err.otherError m => "\n❌ Unexpected error: " ++ m

/-- `ProjectInitializer.run`: banner, the seven steps under try/except, and
the resulting exit status (`some 1` for `sys.exit(1)`, `none` for a normal
return). -/
def run (osType : String) (env : Env) (st : St) : St × Option Nat :=
  let st := print1 bannerMsg st
  match seqSteps (step_list osType) env st with
  | Except.ok st1 => (st1, none)
  | Except.error (e, st1) => (print1 (errMsg e) st1, some 1)

/-- `main` of the source (renamed: Lean reserves `main` for executables):
parse the two flags; with neither flag run full setup, with at least one
flag only print the partial-mode messages. -/
def mainFn (skip_venv skip_deps : Bool) (osType : String) (env : Env) (st : St) : St × Option Nat :=
  if !skip_venv && !skip_deps then run osType env st
  else
    let st := print1 "⚠️  Partial initialization mode" st
    let st := if skip_venv then print1 "  - Skipping virtual environment creation" st else st
    let st := if skip_deps then print1 "  - Skipping dependency installation" st else st
    (print1 "\nRun without flags for complete initialization." st, none)

/-- Extract the success state of a `Res` (defaulting to the raise state);
used only to name concrete states in witnesses. -/
def getOk : Res → St
  | Except.ok st => st
  | Except.error e => e.2

/-- An empty starting state: no modelled files, nothing printed yet. -/
def st0 : St := { fs := [], out := [], procs := [] }

/-- An oracle under which every external command succeeds. -/
def envAllOk : Env := fun _ => true

/-- An oracle under which every external command fails. -/
def envAllFail : Env := fun _ => false

deriving instance DecidableEq for Except

/-- The state at the raise when the very first step fails on an empty
filesystem: banner and step header printed, the venv command invoked. -/
def stVenvFail : St :=
  { fs := [], out := [bannerMsg, "📦 Creating virtual environment..."], procs := [venvCmd] }

/-- A starting state in which every file or directory the setup steps could
create already exists, with distinctive file contents. -/
def stAll : St :=
  { fs := [([venvName], Entry.dir), ([".env"], Entry.file "A"),
           ([".env.example"], Entry.file "E"),
           ([".pre-commit-config.yaml"], Entry.file "B"),
           (["requirements.txt"], Entry.file "R"),
           (["src"], Entry.dir), (["tests"], Entry.dir), (["scripts"], Entry.dir),
           (["data"], Entry.dir), ([".claude"], Entry.dir),
           (["src", "__init__.py"], Entry.file "S"), (["tests", "__init__.py"], Entry.file "T"),
           ([".claude", "CLAUDE.md"], Entry.file "C")],
    out := [], procs := [] }

/-- A starting state holding only the `.env.example` template. -/
def stEnvExample : St :=
  { fs := [([".env.example"], Entry.file "API_KEY=your_key_here\n")], out := [], procs := [] }

@[simp]
theorem print1_fs (s : String) (st : St) : (print1 s st).fs = st.fs := rfl

@[simp]
theorem print1_procs (s : String) (st : St) : (print1 s st).procs = st.procs := rfl

@[simp]
theorem print1_out (s : String) (st : St) : (print1 s st).out = st.out ++ [s] := rfl

theorem fsLookup_fsSet (fs : FS) (p : FsPath) (e : Entry) (q : FsPath) :
    fsLookup (fsSet fs p e) q = if q = p then some e else fsLookup fs q := rfl

/-- A raise inside a statement sequence decomposes it: some prefix ran
normally, the next statement raised, and the statements after it
contribute nothing to the result. -/
theorem seqSteps_error_split (L : List (Env → St → Res)) (env : Env) (st stE : St) (e : Err)
    (h : seqSteps L env st = Except.error (e, stE)) :
    ∃ pre s rest stMid, L = pre ++ s :: rest
      ∧ seqSteps pre env st = Except.ok stMid
      ∧ s env stMid = Except.error (e, stE) := by
  induction L generalizing st with
  | nil => simp [seqSteps] at h
  | cons a tl ih =>
    cases ha : a env st with
    | ok st1 =>
      simp only [seqSteps, ha] at h
      obtain ⟨pre, s, rest, stMid, hL, h1, h2⟩ := ih st1 h
      refine ⟨a :: pre, s, rest, stMid, by rw [hL]; rfl, ?_, h2⟩
      simp only [seqSteps, ha, h1]
    | error p =>
      simp only [seqSteps, ha] at h
      obtain ⟨rfl⟩ := h
      exact ⟨[], a, tl, st, rfl, rfl, ha⟩

/-- C1: every exception raised during run — a CalledProcessError from an
external process, or any other exception — makes run print a handler
message and return exit status 1, and the resulting state is exactly the
state at the raise (produced by the successful prefix of steps and the
failing step alone): no step after the failing one contributes. -/
theorem run_exception_prints_and_stops (osType : String) (env : Env) (st stE : St) (e : Err)
    (h : seqSteps (step_list osType) env (print1 bannerMsg st) = Except.error (e, stE)) :
    run osType env st = (print1 (errMsg e) stE, some 1)
    ∧ ∃ pre s rest stMid, step_list osType = pre ++ s :: rest
        ∧ seqSteps pre env (print1 bannerMsg st) = Except.ok stMid
        ∧ s env stMid = Except.error (e, stE) := by
  constructor
  · simp only [run, h]
  · exact seqSteps_error_split _ env _ stE e h

/-- Witness for C1: with every external command failing, the first step's
venv invocation raises, run exits 1 after printing the handler message. -/
theorem run_exception_prints_and_stops_witness :
    run "Linux" envAllFail st0 =
      (print1 (errMsg (Err.calledProcessError venvCmd)) stVenvFail, some 1)
    ∧ ∃ pre s rest stMid, step_list "Linux" = pre ++ s :: rest
        ∧ seqSteps pre envAllFail (print1 bannerMsg st0) = Except.ok stMid
        ∧ s envAllFail stMid = Except.error (Err.calledProcessError venvCmd, stVenvFail) :=
  run_exception_prints_and_stops "Linux" envAllFail st0 stVenvFail
    (Err.calledProcessError venvCmd) (by decide)

/-- C5: a normal (exit-status-free) run decomposes into exactly the six
setup steps in the fixed source order — virtual environment, dependencies,
environment file, project directories, git hooks, assistant configuration —
each step consuming precisely the state produced by the previous one,
followed only by the final next-steps printout. -/
theorem run_success_steps (osType : String) (env : Env) (st stF : St)
    (h : run osType env st = (stF, none)) :
    ∃ s1 s2 s3 s4 s5 s6,
      create_virtual_environment env (print1 bannerMsg st) = Except.ok s1
      ∧ install_dependencies osType env s1 = Except.ok s2
      ∧ setup_environment_file s2 = Except.ok s3
      ∧ create_project_directories s3 = Except.ok s4
      ∧ setup_git_hooks osType env s4 = Except.ok s5
      ∧ create_claude_config s5 = Except.ok s6
      ∧ stF = print_next_steps osType s6 := by
  have h' : seqSteps (step_list osType) env (print1 bannerMsg st) = Except.ok stF := by
    cases hs : seqSteps (step_list osType) env (print1 bannerMsg st) with
    | ok s => simp only [run, hs] at h; rw [Prod.mk.injEq] at h; rw [h.1]
    | error p =>
      obtain ⟨e, sE⟩ := p
      simp only [run, hs] at h
      rw [Prod.mk.injEq] at h
      exact absurd h.2 (by simp)
  simp only [step_list, seqSteps] at h'
  cases h1 : create_virtual_environment env (print1 bannerMsg st) with
  | error p => simp only [h1] at h'; exact Except.noConfusion h'
  | ok s1 =>
  simp only [h1] at h'
  cases h2 : install_dependencies osType env s1 with
  | error p => simp only [h2] at h'; exact Except.noConfusion h'
  | ok s2 =>
  simp only [h2] at h'
  cases h3 : setup_environment_file s2 with
  | error p => simp only [h3] at h'; exact Except.noConfusion h'
  | ok s3 =>
  simp only [h3] at h'
  cases h4 : create_project_directories s3 with
  | error p => simp only [h4] at h'; exact Except.noConfusion h'
  | ok s4 =>
  simp only [h4] at h'
  cases h5 : setup_git_hooks osType env s4 with
  | error p => simp only [h5] at h'; exact Except.noConfusion h'
  | ok s5 =>
  simp only [h5] at h'
  cases h6 : create_claude_config s5 with
  | error p => simp only [h6] at h'; exact Except.noConfusion h'
  | ok s6 =>
  simp only [h6, Except.ok.injEq] at h'
  exact ⟨s1, s2, s3, s4, s5, s6, rfl, h2, h3, h4, h5, h6, h'.symm⟩

/-- Witness for C5: a fully successful concrete run from the empty state. -/
theorem run_success_steps_witness :
    ∃ s1 s2 s3 s4 s5 s6,
      create_virtual_environment envAllOk (print1 bannerMsg st0) = Except.ok s1
      ∧ install_dependencies "Linux" envAllOk s1 = Except.ok s2
      ∧ setup_environment_file s2 = Except.ok s3
      ∧ create_project_directories s3 = Except.ok s4
      ∧ setup_git_hooks "Linux" envAllOk s4 = Except.ok s5
      ∧ create_claude_config s5 = Except.ok s6
      ∧ (run "Linux" envAllOk st0).1 = print_next_steps "Linux" s6 :=
  run_success_steps "Linux" envAllOk st0 (run "Linux" envAllOk st0).1 (by
    have h2 : (run "Linux" envAllOk st0).2 = none := by decide
    rw [← h2])

/-- C2: with at least one of the two skip flags set, main only prints: the
result state differs from the start state in the printed lines alone (the
filesystem and the process trace are untouched, so no setup step ran and no
external process was invoked), and the program does not exit with an error. -/
theorem mainFn_skip_flags_only_prints (sv sd : Bool) (osType : String) (env : Env) (st : St)
    (h : (sv || sd) = true) :
    ∃ msgs, mainFn sv sd osType env st = ({ st with out := st.out ++ msgs }, none) := by
  cases sv with
  | true =>
    cases sd with
    | true =>
      exact ⟨["⚠️  Partial initialization mode",
              "  - Skipping virtual environment creation",
              "  - Skipping dependency installation",
              "\nRun without flags for complete initialization."],
        by simp [mainFn, print1]⟩
    | false =>
      exact ⟨["⚠️  Partial initialization mode",
              "  - Skipping virtual environment creation",
              "\nRun without flags for complete initialization."],
        by simp [mainFn, print1]⟩
  | false =>
    cases sd with
    | true =>
      exact ⟨["⚠️  Partial initialization mode",
              "  - Skipping dependency installation",
              "\nRun without flags for complete initialization."],
        by simp [mainFn, print1]⟩
    | false => simp at h

/-- Witness for C2: the skip-venv flag at a concrete state. -/
theorem mainFn_skip_flags_only_prints_witness :
    ∃ msgs, mainFn true false "Linux" envAllOk stAll = ({ stAll with out := stAll.out ++ msgs }, none) :=
  mainFn_skip_flags_only_prints true false "Linux" envAllOk stAll rfl

/-- C8: when `.env` is missing and `.env.example` exists with content `c`,
setup_environment_file returns normally with `.env` present holding exactly
`c`, and `.env.example` still holding `c`. -/
theorem setup_environment_file_copies_example (st : St) (c : String)
    (h1 : fsLookup st.fs [".env"] = none)
    (h2 : fsLookup st.fs [".env.example"] = some (Entry.file c)) :
    ∃ s1, setup_environment_file st = Except.ok s1
      ∧ fsLookup s1.fs [".env"] = some (Entry.file c)
      ∧ fsLookup s1.fs [".env.example"] = some (Entry.file c) := by
  have hb : fsExists st.fs [".env"] = false := by simp [fsExists, h1]
  have hb2 : fsExists st.fs [".env.example"] = true := by simp [fsExists, h2]
  refine ⟨print1 "⚠️  Please update .env with your actual API keys"
      (print1 "✅ Created .env file from .env.example"
        { st with out := st.out ++ ["🔧 Setting up environment file..."],
                  fs := fsSet st.fs [".env"] (Entry.file c) }), ?_, ?_, ?_⟩
  · simp only [setup_environment_file, copyFile, writeText, parentOk, print1_fs, hb, hb2, h1,
      h2, Bool.false_eq_true, if_false, if_true, isDirAt]
    rfl
  · rw [print1_fs, print1_fs]
    show fsLookup (fsSet st.fs [".env"] (Entry.file c)) [".env"] = some (Entry.file c)
    rw [fsLookup_fsSet, if_pos rfl]
  · rw [print1_fs, print1_fs]
    show fsLookup (fsSet st.fs [".env"] (Entry.file c)) [".env.example"] = some (Entry.file c)
    rw [fsLookup_fsSet, if_neg (by decide), h2]

/-- Witness for C8: copying the concrete template into an empty `.env`. -/
theorem setup_environment_file_copies_example_witness :
    ∃ s1, setup_environment_file stEnvExample = Except.ok s1
      ∧ fsLookup s1.fs [".env"] = some (Entry.file "API_KEY=your_key_here\n")
      ∧ fsLookup s1.fs [".env.example"] = some (Entry.file "API_KEY=your_key_here\n") :=
  setup_environment_file_copies_example stEnvExample "API_KEY=your_key_here\n" rfl rfl

theorem procFx_not_venv (cmd : List String) (fs : FS) (h : cmd ≠ venvCmd) :
    procFx cmd fs = fs := by
  rw [procFx, if_neg h]

theorem pipUpgradeCmd_ne_venvCmd (osType : String) : pipUpgradeCmd osType ≠ venvCmd := by
  simp [pipUpgradeCmd, venvCmd, pyExe, pathStr, venvName]

theorem runProc_ok_fs (env : Env) (cmd : List String) (st s : St) (hne : cmd ≠ venvCmd)
    (h : runProc env cmd st = Except.ok s) : s.fs = st.fs := by
  by_cases he : env cmd = true
  · simp only [runProc, he, if_true, Except.ok.injEq] at h
    rw [← h, procFx_not_venv cmd _ hne]
  · simp only [runProc, he, Bool.not_eq_true, if_neg] at h
    exact Except.noConfusion h

theorem runProc_error_fs (env : Env) (cmd : List String) (st : St) (e : Err) (s : St)
    (h : runProc env cmd st = Except.error (e, s)) : s.fs = st.fs := by
  by_cases he : env cmd = true
  · simp only [runProc, he, if_true] at h
    exact Except.noConfusion h
  · simp only [runProc, he, Bool.not_eq_true, if_neg, Except.error.injEq, Prod.mk.injEq] at h
    rw [← h.2]

/-- C9: when `requirements.txt` is missing and the pip-upgrade invocation
itself succeeds, install_dependencies returns normally (no raise): the pip
upgrade is the only external process invoked (so no requirements install is
attempted), a warning line is printed, the filesystem is untouched, and the
statements following it in a sequence still run from its result state. -/
theorem install_dependencies_missing_requirements (osType : String) (env : Env) (st : St)
    (h1 : fsLookup st.fs ["requirements.txt"] = none)
    (h2 : env (pipUpgradeCmd osType) = true) :
    ∃ s1, install_dependencies osType env st = Except.ok s1
      ∧ s1.fs = st.fs
      ∧ s1.out = st.out ++ ["📥 Installing dependencies...", "⚠️  No requirements.txt found"]
      ∧ s1.procs = st.procs ++ [pipUpgradeCmd osType]
      ∧ ∀ rest, seqSteps ((fun e s => install_dependencies osType e s) :: rest) env st
          = seqSteps rest env s1 := by
  have hfx := procFx_not_venv (pipUpgradeCmd osType) st.fs (pipUpgradeCmd_ne_venvCmd osType)
  have hex : fsExists st.fs ["requirements.txt"] = false := by simp [fsExists, h1]
  have heq : install_dependencies osType env st = Except.ok
      { st with out := st.out ++ ["📥 Installing dependencies...", "⚠️  No requirements.txt found"],
                procs := st.procs ++ [pipUpgradeCmd osType] } := by
    simp only [install_dependencies, runProc, print1_fs, print1_procs, h2, if_true, procFx,
      if_neg (pipUpgradeCmd_ne_venvCmd osType), fsExists, h1, Option.isSome_none,
      Bool.false_eq_true, if_false]
    simp [print1]
  refine ⟨_, heq, rfl, by simp [print1], rfl, ?_⟩
  intro rest
  simp only [seqSteps, heq]

/-- Witness for C9: concrete run with an empty filesystem and an oracle
accepting every command. -/
theorem install_dependencies_missing_requirements_witness :
    ∃ s1, install_dependencies "Linux" envAllOk st0 = Except.ok s1
      ∧ s1.fs = st0.fs
      ∧ s1.out = st0.out ++ ["📥 Installing dependencies...", "⚠️  No requirements.txt found"]
      ∧ s1.procs = st0.procs ++ [pipUpgradeCmd "Linux"]
      ∧ ∀ rest, seqSteps ((fun e s => install_dependencies "Linux" e s) :: rest) envAllOk st0
          = seqSteps rest envAllOk s1 :=
  install_dependencies_missing_requirements "Linux" envAllOk st0 rfl rfl

/-- C3: each setup operation whose target already exists returns normally
and leaves the whole modelled filesystem — in particular the contents of
that target — unchanged: the venv directory for
create_virtual_environment, `.env` for setup_environment_file,
`.pre-commit-config.yaml` for setup_git_hooks, and `.claude/CLAUDE.md` for
create_claude_config. -/
theorem existing_targets_not_overwritten (osType : String) (env : Env) (st : St) :
    (fsExists st.fs [venvName] = true →
      ∃ s1, create_virtual_environment env st = Except.ok s1 ∧ s1.fs = st.fs)
    ∧ (fsExists st.fs [".env"] = true →
      ∃ s1, setup_environment_file st = Except.ok s1 ∧ s1.fs = st.fs)
    ∧ (fsExists st.fs [".pre-commit-config.yaml"] = true →
      ∃ s1, setup_git_hooks osType env st = Except.ok s1 ∧ s1.fs = st.fs)
    ∧ (fsExists st.fs [".claude", "CLAUDE.md"] = true →
      ∃ s1, create_claude_config st = Except.ok s1 ∧ s1.fs = st.fs) := by
  refine ⟨?_, ?_, ?_, ?_⟩
  · intro h
    simp only [create_virtual_environment, print1_fs, h, if_true]
    exact ⟨_, rfl, rfl⟩
  · intro h
    simp only [setup_environment_file, print1_fs, h, if_true]
    exact ⟨_, rfl, rfl⟩
  · intro h
    simp only [setup_git_hooks]
    cases hA : runProc env [get_pip_command osType, "install", "pre-commit"]
        (print1 "🪝 Setting up git hooks..." st) with
    | error p =>
      obtain ⟨e, s⟩ := p
      refine ⟨_, rfl, ?_⟩
      rw [gitHooksWarn, print1_fs, runProc_error_fs _ _ _ _ _ hA, print1_fs]
    | ok s =>
      have hsfs : s.fs = st.fs := by
        rw [runProc_ok_fs env _ _ s (by simp [venvCmd]) hA, print1_fs]
      simp only [hsfs, h, if_true]
      cases hB : runProc env [preCommitCmd osType, "install"] s with
      | error p =>
        obtain ⟨e2, s2⟩ := p
        refine ⟨_, rfl, ?_⟩
        rw [gitHooksWarn, print1_fs, runProc_error_fs _ _ _ _ _ hB, hsfs]
      | ok s3 =>
        refine ⟨_, rfl, ?_⟩
        rw [print1_fs, runProc_ok_fs env _ _ s3 (by simp [venvCmd]) hB, hsfs]
  · intro h
    simp only [create_claude_config, print1_fs, h, if_true]
    exact ⟨_, rfl, rfl⟩

/-- Witness for C3: every target exists in the concrete state, each of the
four operations succeeds and leaves the filesystem untouched. -/
theorem existing_targets_not_overwritten_witness :
    (∃ s1, create_virtual_environment envAllOk stAll = Except.ok s1 ∧ s1.fs = stAll.fs)
    ∧ (∃ s1, setup_environment_file stAll = Except.ok s1 ∧ s1.fs = stAll.fs)
    ∧ (∃ s1, setup_git_hooks "Linux" envAllOk stAll = Except.ok s1 ∧ s1.fs = stAll.fs)
    ∧ (∃ s1, create_claude_config stAll = Except.ok s1 ∧ s1.fs = stAll.fs) :=
  ⟨(existing_targets_not_overwritten "Linux" envAllOk stAll).1 rfl,
   (existing_targets_not_overwritten "Linux" envAllOk stAll).2.1 rfl,
   (existing_targets_not_overwritten "Linux" envAllOk stAll).2.2.1 rfl,
   (existing_targets_not_overwritten "Linux" envAllOk stAll).2.2.2 rfl⟩

theorem isDirAt_iff (fs : FS) (q : FsPath) :
    isDirAt fs q = true ↔ fsLookup fs q = some Entry.dir := by
  cases h : fsLookup fs q with
  | none => simp [isDirAt, h]
  | some e => cases e <;> simp [isDirAt, h]

theorem mkdirExistOk_spec (st s : St) (p : FsPath) (h : mkdirExistOk st p = Except.ok s) :
    fsLookup s.fs p = some Entry.dir
    ∧ (∀ q, fsLookup s.fs q = fsLookup st.fs q
        ∨ (q = p ∧ fsLookup st.fs q = none ∧ fsLookup s.fs q = some Entry.dir))
    ∧ (fsLookup st.fs p = some Entry.dir → s = st)
    ∧ s.out = st.out ∧ s.procs = st.procs := by
  cases hm : fsLookup st.fs p with
  | some e =>
    cases e with
    | dir =>
      simp only [mkdirExistOk, hm, Except.ok.injEq] at h
      subst h
      exact ⟨hm, fun q => Or.inl rfl, fun _ => rfl, rfl, rfl⟩
    | file c =>
      simp only [mkdirExistOk, hm] at h
      exact Except.noConfusion h
  | none =>
    simp only [mkdirExistOk, hm] at h
    cases hp : parentOk st.fs p with
    | false =>
      simp only [hp, Bool.false_eq_true, if_false] at h
      exact Except.noConfusion h
    | true =>
      simp only [hp, if_true, Except.ok.injEq] at h
      subst h
      refine ⟨?_, ?_, ?_, rfl, rfl⟩
      · show fsLookup (fsSet st.fs p Entry.dir) p = some Entry.dir
        rw [fsLookup_fsSet, if_pos rfl]
      · intro q
        by_cases hq : q = p
        · subst hq
          refine Or.inr ⟨rfl, hm, ?_⟩
          show fsLookup (fsSet st.fs q Entry.dir) q = some Entry.dir
          rw [fsLookup_fsSet, if_pos rfl]
        · left
          show fsLookup (fsSet st.fs p Entry.dir) q = fsLookup st.fs q
          rw [fsLookup_fsSet, if_neg hq]
      · intro hc
        exact Option.noConfusion hc

theorem touchPath_spec (st s : St) (p : FsPath) (h : touchPath st p = Except.ok s) :
    (fsLookup s.fs p).isSome = true
    ∧ (∀ q, fsLookup s.fs q = fsLookup st.fs q
        ∨ (q = p ∧ fsLookup st.fs q = none ∧ fsLookup s.fs q = some (Entry.file "")))
    ∧ ((fsLookup st.fs p).isSome = true → s = st)
    ∧ s.out = st.out ∧ s.procs = st.procs := by
  cases hm : fsLookup st.fs p with
  | some e =>
    simp only [touchPath, hm, Except.ok.injEq] at h
    subst h
    exact ⟨by rw [hm]; rfl, fun q => Or.inl rfl, fun _ => rfl, rfl, rfl⟩
  | none =>
    simp only [touchPath, hm] at h
    cases hp : parentOk st.fs p with
    | false =>
      simp only [hp, Bool.false_eq_true, if_false] at h
      exact Except.noConfusion h
    | true =>
      simp only [hp, if_true, Except.ok.injEq] at h
      subst h
      refine ⟨?_, ?_, ?_, rfl, rfl⟩
      · show (fsLookup (fsSet st.fs p (Entry.file "")) p).isSome = true
        rw [fsLookup_fsSet, if_pos rfl]
        rfl
      · intro q
        by_cases hq : q = p
        · subst hq
          refine Or.inr ⟨rfl, hm, ?_⟩
          show fsLookup (fsSet st.fs q (Entry.file "")) q = some (Entry.file "")
          rw [fsLookup_fsSet, if_pos rfl]
        · left
          show fsLookup (fsSet st.fs p (Entry.file "")) q = fsLookup st.fs q
          rw [fsLookup_fsSet, if_neg hq]
      · intro hc
        simp at hc

theorem dirStep_spec (d : String) (st s1 : St) (h : dirStep d st = Except.ok s1) :
    fsLookup s1.fs [d] = some Entry.dir
    ∧ ((d = "src" ∨ d = "tests") → (fsLookup s1.fs [d, "__init__.py"]).isSome = true)
    ∧ (∀ q, fsLookup s1.fs q = fsLookup st.fs q
        ∨ (q = [d] ∧ fsLookup st.fs q = none ∧ fsLookup s1.fs q = some Entry.dir)
        ∨ (q = [d, "__init__.py"] ∧ (d = "src" ∨ d = "tests")
            ∧ fsLookup st.fs q = none ∧ fsLookup s1.fs q = some (Entry.file "")))
    ∧ s1.out = st.out ∧ s1.procs = st.procs := by
  cases hmk : mkdirExistOk st [d] with
  | error p =>
    simp only [dirStep, hmk] at h
    exact Except.noConfusion h
  | ok stm =>
    simp only [dirStep, hmk] at h
    obtain ⟨hm1, hm2, _, hmo, hmp⟩ := mkdirExistOk_spec st stm [d] hmk
    by_cases hd : d = "src" ∨ d = "tests"
    · rw [if_pos hd] at h
      obtain ⟨ht1, ht2, _, hto, htp⟩ := touchPath_spec stm s1 [d, "__init__.py"] h
      refine ⟨?_, fun _ => ht1, ?_, by rw [hto, hmo], by rw [htp, hmp]⟩
      · rcases ht2 [d] with he | ⟨hq, _⟩
        · rw [he]; exact hm1
        · exact absurd hq (by simp)
      · intro q
        rcases ht2 q with he | ⟨hq, hnone, hfile⟩
        · rcases hm2 q with he2 | ⟨hq2, hn2, hd2⟩
          · left; rw [he, he2]
          · right; left; exact ⟨hq2, hn2, he.trans hd2⟩
        · rcases hm2 q with he2 | ⟨hq2, _, _⟩
          · right; right; exact ⟨hq, hd, he2.symm.trans hnone, hfile⟩
          · rw [hq] at hq2; exact absurd hq2 (by simp)
    · rw [if_neg hd] at h
      simp only [Except.ok.injEq] at h
      subst h
      refine ⟨hm1, fun hc => absurd hc hd, ?_, hmo, hmp⟩
      intro q
      rcases hm2 q with he | ⟨hq, hn, hdir⟩
      · left; exact he
      · right; left; exact ⟨hq, hn, hdir⟩

theorem dirStep_pres (d : String) (st s1 : St) (h : dirStep d st = Except.ok s1)
    (q : FsPath) (h1 : q ≠ [d]) (h2 : q ≠ [d, "__init__.py"]) :
    fsLookup s1.fs q = fsLookup st.fs q := by
  rcases (dirStep_spec d st s1 h).2.2.1 q with he | ⟨hq, _⟩ | ⟨hq, _⟩
  · exact he
  · exact absurd hq h1
  · exact absurd hq h2

theorem dirStep_skip (d : String) (st : St)
    (h1 : fsLookup st.fs [d] = some Entry.dir)
    (h2 : (d = "src" ∨ d = "tests") → (fsLookup st.fs [d, "__init__.py"]).isSome = true) :
    dirStep d st = Except.ok st := by
  by_cases hd : d = "src" ∨ d = "tests"
  · obtain ⟨e, he⟩ := Option.isSome_iff_exists.mp (h2 hd)
    simp only [dirStep, mkdirExistOk, h1, if_pos hd, touchPath, he]
  · simp only [dirStep, mkdirExistOk, h1, if_neg hd]

theorem mkdirExistOk_ok_of_not_file (st : St) (d : String)
    (h1 : fsLookup st.fs [d] = some Entry.dir ∨ fsLookup st.fs [d] = none) :
    ∃ stm, mkdirExistOk st [d] = Except.ok stm := by
  rcases h1 with h1 | h1
  · exact ⟨st, by simp only [mkdirExistOk, h1]⟩
  · refine ⟨{ st with fs := fsSet st.fs [d] Entry.dir }, ?_⟩
    simp only [mkdirExistOk, h1]
    rw [if_pos (show parentOk st.fs [d] = true from rfl)]

theorem touchPath_ok_of_parent (st : St) (d : String) (hpar : isDirAt st.fs [d] = true) :
    ∃ s1, touchPath st [d, "__init__.py"] = Except.ok s1 := by
  cases ht : fsLookup st.fs [d, "__init__.py"] with
  | some e => exact ⟨st, by simp only [touchPath, ht]⟩
  | none =>
    refine ⟨{ st with fs := fsSet st.fs [d, "__init__.py"] (Entry.file "") }, ?_⟩
    simp only [touchPath, ht]
    rw [if_pos (show parentOk st.fs [d, "__init__.py"] = true from hpar)]

theorem dirStep_ok_of_not_file (d : String) (st : St)
    (h1 : fsLookup st.fs [d] = some Entry.dir ∨ fsLookup st.fs [d] = none) :
    ∃ s1, dirStep d st = Except.ok s1 := by
  obtain ⟨stm, hmk⟩ := mkdirExistOk_ok_of_not_file st d h1
  have hdir : fsLookup stm.fs [d] = some Entry.dir := (mkdirExistOk_spec st stm [d] hmk).1
  by_cases hd : d = "src" ∨ d = "tests"
  · obtain ⟨s1, htc⟩ := touchPath_ok_of_parent stm d (by rw [isDirAt_iff]; exact hdir)
    exact ⟨s1, by simp only [dirStep, hmk, if_pos hd, htc]⟩
  · exact ⟨stm, by simp only [dirStep, hmk, if_neg hd]⟩

theorem cPD_decomp (st s2 : St) (h : create_project_directories st = Except.ok s2) :
    ∃ s1 t1 t2 t3 t4,
      dirStep "src" (print1 "📁 Creating project directories..." st) = Except.ok s1
      ∧ dirStep "tests" s1 = Except.ok t1
      ∧ dirStep "scripts" t1 = Except.ok t2
      ∧ dirStep "data" t2 = Except.ok t3
      ∧ dirStep ".claude" t3 = Except.ok t4
      ∧ s2 = print1 "✅ Project directories created" t4 := by
  simp only [create_project_directories, directoriesList, dirLoop] at h
  cases h1 : dirStep "src" (print1 "📁 Creating project directories..." st) with
  | error p => simp only [h1] at h; exact Except.noConfusion h
  | ok s1 =>
  simp only [h1] at h
  cases h2 : dirStep "tests" s1 with
  | error p => simp only [h2] at h; exact Except.noConfusion h
  | ok t1 =>
  simp only [h2] at h
  cases h3 : dirStep "scripts" t1 with
  | error p => simp only [h3] at h; exact Except.noConfusion h
  | ok t2 =>
  simp only [h3] at h
  cases h4 : dirStep "data" t2 with
  | error p => simp only [h4] at h; exact Except.noConfusion h
  | ok t3 =>
  simp only [h4] at h
  cases h5 : dirStep ".claude" t3 with
  | error p => simp only [h5] at h; exact Except.noConfusion h
  | ok t4 =>
  simp only [h5, Except.ok.injEq] at h
  exact ⟨s1, t1, t2, t3, t4, rfl, h2, h3, h4, h5, h.symm⟩

theorem cPD_ok_state (st s2 : St) (h : create_project_directories st = Except.ok s2) :
    (∀ d ∈ directoriesList, fsLookup s2.fs [d] = some Entry.dir)
    ∧ (fsLookup s2.fs ["src", "__init__.py"]).isSome = true
    ∧ (fsLookup s2.fs ["tests", "__init__.py"]).isSome = true := by
  obtain ⟨s1, t1, t2, t3, t4, h1, h2, h3, h4, h5, heq⟩ := cPD_decomp st s2 h
  subst heq
  have psrc : fsLookup t4.fs ["src"] = some Entry.dir := by
    rw [dirStep_pres _ _ _ h5 ["src"] (by decide) (by decide),
        dirStep_pres _ _ _ h4 ["src"] (by decide) (by decide),
        dirStep_pres _ _ _ h3 ["src"] (by decide) (by decide),
        dirStep_pres _ _ _ h2 ["src"] (by decide) (by decide)]
    exact (dirStep_spec _ _ _ h1).1
  have ptests : fsLookup t4.fs ["tests"] = some Entry.dir := by
    rw [dirStep_pres _ _ _ h5 ["tests"] (by decide) (by decide),
        dirStep_pres _ _ _ h4 ["tests"] (by decide) (by decide),
        dirStep_pres _ _ _ h3 ["tests"] (by decide) (by decide)]
    exact (dirStep_spec _ _ _ h2).1
  have pscripts : fsLookup t4.fs ["scripts"] = some Entry.dir := by
    rw [dirStep_pres _ _ _ h5 ["scripts"] (by decide) (by decide),
        dirStep_pres _ _ _ h4 ["scripts"] (by decide) (by decide)]
    exact (dirStep_spec _ _ _ h3).1
  have pdata : fsLookup t4.fs ["data"] = some Entry.dir := by
    rw [dirStep_pres _ _ _ h5 ["data"] (by decide) (by decide)]
    exact (dirStep_spec _ _ _ h4).1
  have pclaude : fsLookup t4.fs [".claude"] = some Entry.dir :=
    (dirStep_spec _ _ _ h5).1
  have isrc : (fsLookup t4.fs ["src", "__init__.py"]).isSome = true := by
    rw [dirStep_pres _ _ _ h5 ["src", "__init__.py"] (by decide) (by decide),
        dirStep_pres _ _ _ h4 ["src", "__init__.py"] (by decide) (by decide),
        dirStep_pres _ _ _ h3 ["src", "__init__.py"] (by decide) (by decide),
        dirStep_pres _ _ _ h2 ["src", "__init__.py"] (by decide) (by decide)]
    exact (dirStep_spec _ _ _ h1).2.1 (Or.inl rfl)
  have itests : (fsLookup t4.fs ["tests", "__init__.py"]).isSome = true := by
    rw [dirStep_pres _ _ _ h5 ["tests", "__init__.py"] (by decide) (by decide),
        dirStep_pres _ _ _ h4 ["tests", "__init__.py"] (by decide) (by decide),
        dirStep_pres _ _ _ h3 ["tests", "__init__.py"] (by decide) (by decide)]
    exact (dirStep_spec _ _ _ h2).2.1 (Or.inr rfl)
  refine ⟨?_, by rw [print1_fs]; exact isrc, by rw [print1_fs]; exact itests⟩
  intro d hd
  rw [print1_fs]
  simp only [directoriesList, List.mem_cons, List.mem_singleton, List.not_mem_nil] at hd
  rcases hd with rfl | rfl | rfl | rfl | rfl | hfalse
  · exact psrc
  · exact ptests
  · exact pscripts
  · exact pdata
  · exact pclaude
  · exact absurd hfalse (by simp)

theorem dirStep_pres_other (d : String) (st s1 : St) (h : dirStep d st = Except.ok s1)
    (hd : ¬(d = "src" ∨ d = "tests")) (q : FsPath) (h1 : q ≠ [d]) :
    fsLookup s1.fs q = fsLookup st.fs q := by
  rcases (dirStep_spec d st s1 h).2.2.1 q with he | ⟨hq, _, _⟩ | ⟨_, hds, _, _⟩
  · exact he
  · exact absurd hq h1
  · exact absurd hds hd

theorem dirStep_back (d : String) (st s1 : St) (h : dirStep d st = Except.ok s1)
    (q : FsPath) (hq : fsLookup s1.fs q = some Entry.dir) :
    fsLookup st.fs q = some Entry.dir ∨ q = [d] := by
  rcases (dirStep_spec d st s1 h).2.2.1 q with he | ⟨hp, _, _⟩ | ⟨_, _, _, hfile⟩
  · left; rw [← he]; exact hq
  · right; exact hp
  · exact absurd (hq.symm.trans hfile) (by simp)

/-- C7: when create_project_directories returns normally, the directories
src, tests, scripts, data and .claude all exist as directories; every
directory of the result was already a directory before or is one of those
five (the step creates no other directory); and the step succeeds on any
state in which some or all of the five already exist as directories. -/
theorem create_project_directories_complete (st s2 : St)
    (h : create_project_directories st = Except.ok s2) :
    (∀ d ∈ directoriesList, fsLookup s2.fs [d] = some Entry.dir)
    ∧ (∀ q, isDirAt s2.fs q = true → isDirAt st.fs q = true ∨ ∃ d ∈ directoriesList, q = [d])
    ∧ (∀ st3 : St, (∀ d ∈ directoriesList,
          fsLookup st3.fs [d] = some Entry.dir ∨ fsLookup st3.fs [d] = none) →
        ∃ s3, create_project_directories st3 = Except.ok s3) := by
  refine ⟨(cPD_ok_state st s2 h).1, ?_, ?_⟩
  · intro q hq
    obtain ⟨s1, t1, t2, t3, t4, h1, h2, h3, h4, h5, heq⟩ := cPD_decomp st s2 h
    rw [isDirAt_iff, heq, print1_fs] at hq
    rcases dirStep_back _ _ _ h5 q hq with hq4 | rfl
    · rcases dirStep_back _ _ _ h4 q hq4 with hq3 | rfl
      · rcases dirStep_back _ _ _ h3 q hq3 with hq2 | rfl
        · rcases dirStep_back _ _ _ h2 q hq2 with hq1 | rfl
          · rcases dirStep_back _ _ _ h1 q hq1 with hq0 | rfl
            · left
              rw [isDirAt_iff]
              rw [print1_fs] at hq0
              exact hq0
            · right; exact ⟨"src", by simp [directoriesList], rfl⟩
          · right; exact ⟨"tests", by simp [directoriesList], rfl⟩
        · right; exact ⟨"scripts", by simp [directoriesList], rfl⟩
      · right; exact ⟨"data", by simp [directoriesList], rfl⟩
    · right; exact ⟨".claude", by simp [directoriesList], rfl⟩
  · intro st3 hall
    have hsrc := hall "src" (by simp [directoriesList])
    have htests := hall "tests" (by simp [directoriesList])
    have hscripts := hall "scripts" (by simp [directoriesList])
    have hdata := hall "data" (by simp [directoriesList])
    have hclaude := hall ".claude" (by simp [directoriesList])
    obtain ⟨s1, e1⟩ := dirStep_ok_of_not_file "src" (print1 "📁 Creating project directories..." st3)
      (by rw [print1_fs]; exact hsrc)
    obtain ⟨t1, e2⟩ := dirStep_ok_of_not_file "tests" s1
      (by rw [dirStep_pres _ _ _ e1 ["tests"] (by decide) (by decide), print1_fs]; exact htests)
    obtain ⟨t2, e3⟩ := dirStep_ok_of_not_file "scripts" t1
      (by rw [dirStep_pres _ _ _ e2 ["scripts"] (by decide) (by decide),
              dirStep_pres _ _ _ e1 ["scripts"] (by decide) (by decide), print1_fs]
          exact hscripts)
    obtain ⟨t3, e4⟩ := dirStep_ok_of_not_file "data" t2
      (by rw [dirStep_pres _ _ _ e3 ["data"] (by decide) (by decide),
              dirStep_pres _ _ _ e2 ["data"] (by decide) (by decide),
              dirStep_pres _ _ _ e1 ["data"] (by decide) (by decide), print1_fs]
          exact hdata)
    obtain ⟨t4, e5⟩ := dirStep_ok_of_not_file ".claude" t3
      (by rw [dirStep_pres _ _ _ e4 [".claude"] (by decide) (by decide),
              dirStep_pres _ _ _ e3 [".claude"] (by decide) (by decide),
              dirStep_pres _ _ _ e2 [".claude"] (by decide) (by decide),
              dirStep_pres _ _ _ e1 [".claude"] (by decide) (by decide), print1_fs]
          exact hclaude)
    refine ⟨print1 "✅ Project directories created" t4, ?_⟩
    simp only [create_project_directories, directoriesList, dirLoop, e1, e2, e3, e4, e5]

/-- Witness for C7: the step run on the empty state, plus the success part
instantiated through the universally quantified conjunct. -/
theorem create_project_directories_complete_witness :
    (∀ d ∈ directoriesList, fsLookup (getOk (create_project_directories st0)).fs [d] = some Entry.dir)
    ∧ (∀ q, isDirAt (getOk (create_project_directories st0)).fs q = true →
        isDirAt st0.fs q = true ∨ ∃ d ∈ directoriesList, q = [d])
    ∧ (∀ st3 : St, (∀ d ∈ directoriesList,
          fsLookup st3.fs [d] = some Entry.dir ∨ fsLookup st3.fs [d] = none) →
        ∃ s3, create_project_directories st3 = Except.ok s3) :=
  create_project_directories_complete st0 (getOk (create_project_directories st0)) (by decide)

/-- C10: when create_project_directories returns normally, `__init__.py`
exists inside src and tests, an existing `__init__.py` in either keeps its
content, and the `__init__.py` entries of the three other created
directories are exactly as they were before the step. -/
theorem init_py_in_src_tests_only (st s2 : St)
    (h : create_project_directories st = Except.ok s2) :
    (fsLookup s2.fs ["src", "__init__.py"]).isSome = true
    ∧ (fsLookup s2.fs ["tests", "__init__.py"]).isSome = true
    ∧ (∀ e, fsLookup st.fs ["src", "__init__.py"] = some e →
        fsLookup s2.fs ["src", "__init__.py"] = some e)
    ∧ (∀ e, fsLookup st.fs ["tests", "__init__.py"] = some e →
        fsLookup s2.fs ["tests", "__init__.py"] = some e)
    ∧ (∀ d, (d = "scripts" ∨ d = "data" ∨ d = ".claude") →
        fsLookup s2.fs [d, "__init__.py"] = fsLookup st.fs [d, "__init__.py"]) := by
  obtain ⟨s1, t1, t2, t3, t4, h1, h2, h3, h4, h5, heq⟩ := cPD_decomp st s2 h
  have hs2 : s2.fs = t4.fs := by rw [heq, print1_fs]
  refine ⟨(cPD_ok_state st s2 h).2.1, (cPD_ok_state st s2 h).2.2, ?_, ?_, ?_⟩
  · intro e he
    rw [hs2, dirStep_pres _ _ _ h5 ["src", "__init__.py"] (by decide) (by decide),
        dirStep_pres _ _ _ h4 ["src", "__init__.py"] (by decide) (by decide),
        dirStep_pres _ _ _ h3 ["src", "__init__.py"] (by decide) (by decide),
        dirStep_pres _ _ _ h2 ["src", "__init__.py"] (by decide) (by decide)]
    rcases (dirStep_spec _ _ _ h1).2.2.1 ["src", "__init__.py"] with heq1 | ⟨hp, _, _⟩ | ⟨_, _, hnone, _⟩
    · rw [heq1, print1_fs]; exact he
    · exact absurd hp (by decide)
    · rw [print1_fs] at hnone
      rw [he] at hnone
      exact Option.noConfusion hnone
  · intro e he
    rw [hs2, dirStep_pres _ _ _ h5 ["tests", "__init__.py"] (by decide) (by decide),
        dirStep_pres _ _ _ h4 ["tests", "__init__.py"] (by decide) (by decide),
        dirStep_pres _ _ _ h3 ["tests", "__init__.py"] (by decide) (by decide)]
    rcases (dirStep_spec _ _ _ h2).2.2.1 ["tests", "__init__.py"] with heq1 | ⟨hp, _, _⟩ | ⟨_, _, hnone, _⟩
    · rw [heq1, dirStep_pres _ _ _ h1 ["tests", "__init__.py"] (by decide) (by decide), print1_fs]
      exact he
    · exact absurd hp (by decide)
    · rw [dirStep_pres _ _ _ h1 ["tests", "__init__.py"] (by decide) (by decide), print1_fs] at hnone
      rw [he] at hnone
      exact Option.noConfusion hnone
  · intro d hd
    rcases hd with rfl | rfl | rfl
    · rw [hs2, dirStep_pres _ _ _ h5 ["scripts", "__init__.py"] (by decide) (by decide),
          dirStep_pres _ _ _ h4 ["scripts", "__init__.py"] (by decide) (by decide),
          dirStep_pres_other _ _ _ h3 (by decide) ["scripts", "__init__.py"] (by decide),
          dirStep_pres _ _ _ h2 ["scripts", "__init__.py"] (by decide) (by decide),
          dirStep_pres _ _ _ h1 ["scripts", "__init__.py"] (by decide) (by decide), print1_fs]
    · rw [hs2, dirStep_pres _ _ _ h5 ["data", "__init__.py"] (by decide) (by decide),
          dirStep_pres_other _ _ _ h4 (by decide) ["data", "__init__.py"] (by decide),
          dirStep_pres _ _ _ h3 ["data", "__init__.py"] (by decide) (by decide),
          dirStep_pres _ _ _ h2 ["data", "__init__.py"] (by decide) (by decide),
          dirStep_pres _ _ _ h1 ["data", "__init__.py"] (by decide) (by decide), print1_fs]
    · rw [hs2, dirStep_pres_other _ _ _ h5 (by decide) [".claude", "__init__.py"] (by decide),
          dirStep_pres _ _ _ h4 [".claude", "__init__.py"] (by decide) (by decide),
          dirStep_pres _ _ _ h3 [".claude", "__init__.py"] (by decide) (by decide),
          dirStep_pres _ _ _ h2 [".claude", "__init__.py"] (by decide) (by decide),
          dirStep_pres _ _ _ h1 [".claude", "__init__.py"] (by decide) (by decide), print1_fs]

/-- Witness for C10: the step run on a state where both `__init__.py`
files and all five directories already exist with distinctive contents. -/
theorem init_py_in_src_tests_only_witness :
    (fsLookup (getOk (create_project_directories stAll)).fs ["src", "__init__.py"]).isSome = true
    ∧ (fsLookup (getOk (create_project_directories stAll)).fs ["tests", "__init__.py"]).isSome = true
    ∧ (∀ e, fsLookup stAll.fs ["src", "__init__.py"] = some e →
        fsLookup (getOk (create_project_directories stAll)).fs ["src", "__init__.py"] = some e)
    ∧ (∀ e, fsLookup stAll.fs ["tests", "__init__.py"] = some e →
        fsLookup (getOk (create_project_directories stAll)).fs ["tests", "__init__.py"] = some e)
    ∧ (∀ d, (d = "scripts" ∨ d = "data" ∨ d = ".claude") →
        fsLookup (getOk (create_project_directories stAll)).fs [d, "__init__.py"]
          = fsLookup stAll.fs [d, "__init__.py"]) :=
  init_py_in_src_tests_only stAll (getOk (create_project_directories stAll)) (by decide)

theorem runProc_venv_creates (env : Env) (st stv : St)
    (h : runProc env venvCmd st = Except.ok stv) :
    fsExists stv.fs [venvName] = true := by
  by_cases he : env venvCmd = true
  · simp only [runProc, he, if_true, Except.ok.injEq] at h
    subst h
    show fsExists (procFx venvCmd st.fs) [venvName] = true
    rw [procFx, if_pos rfl]
    cases hex : fsExists st.fs [venvName] with
    | true => rw [if_pos rfl]; exact hex
    | false =>
      rw [if_neg Bool.false_ne_true]
      simp [fsExists, fsLookup_fsSet]
  · simp only [runProc, he, Bool.not_eq_true, if_neg] at h
    exact Except.noConfusion h

theorem cvE_exists_skip (env : Env) (st : St) (h : fsExists st.fs [venvName] = true) :
    create_virtual_environment env st = Except.ok
      (print1 ("✅ Virtual environment already exists at " ++ pathStr [venvName])
        (print1 "📦 Creating virtual environment..." st)) := by
  simp only [create_virtual_environment, print1_fs, h, if_true]

theorem cvE_ok_venv (env : Env) (st s1 : St)
    (h : create_virtual_environment env st = Except.ok s1) :
    fsExists s1.fs [venvName] = true := by
  by_cases hex : fsExists st.fs [venvName] = true
  · rw [cvE_exists_skip env st hex, Except.ok.injEq] at h
    subst h
    rw [print1_fs, print1_fs]
    exact hex
  · rw [Bool.not_eq_true] at hex
    simp only [create_virtual_environment, print1_fs, hex, Bool.false_eq_true, if_false] at h
    cases hr : runProc env venvCmd (print1 "📦 Creating virtual environment..." st) with
    | error p => simp only [hr] at h; exact Except.noConfusion h
    | ok stv =>
      simp only [hr, Except.ok.injEq] at h
      subst h
      rw [print1_fs]
      exact runProc_venv_creates env _ stv hr

theorem sEF_env_exists (st : St) (h : fsExists st.fs [".env"] = true) :
    setup_environment_file st = Except.ok
      (print1 "✅ .env file already exists" (print1 "🔧 Setting up environment file..." st)) := by
  simp only [setup_environment_file, print1_fs, h, if_true]

theorem sEF_nothing (st : St) (h1 : fsExists st.fs [".env"] = false)
    (h2 : fsExists st.fs [".env.example"] = false) :
    setup_environment_file st = Except.ok
      (print1 "⚠️  No .env.example found" (print1 "🔧 Setting up environment file..." st)) := by
  simp only [setup_environment_file, print1_fs, h1, h2, Bool.false_eq_true, if_false]

theorem copyFile_ok_dst (st stc : St) (src dst : FsPath)
    (h : copyFile st src dst = Except.ok stc) :
    fsExists stc.fs dst = true := by
  cases hs : fsLookup st.fs src with
  | none => simp only [copyFile, hs] at h; exact Except.noConfusion h
  | some e =>
    cases e with
    | dir => simp only [copyFile, hs] at h; exact Except.noConfusion h
    | file c =>
      simp only [copyFile, hs, writeText] at h
      cases hp : parentOk st.fs dst with
      | false =>
        simp only [hp, Bool.false_eq_true, if_false] at h
        exact Except.noConfusion h
      | true =>
        simp only [hp, if_true] at h
        cases hd : fsLookup st.fs dst with
        | some e2 =>
          cases e2 with
          | dir => simp only [hd] at h; exact Except.noConfusion h
          | file c2 =>
            simp only [hd, Except.ok.injEq] at h
            subst h
            simp [fsExists, fsLookup_fsSet]
        | none =>
          simp only [hd, Except.ok.injEq] at h
          subst h
          simp [fsExists, fsLookup_fsSet]

theorem sEF_ok_cases (st s1 : St) (h : setup_environment_file st = Except.ok s1) :
    fsExists s1.fs [".env"] = true
    ∨ (fsExists s1.fs [".env"] = false ∧ fsExists s1.fs [".env.example"] = false) := by
  by_cases h1 : fsExists st.fs [".env"] = true
  · left
    rw [sEF_env_exists st h1, Except.ok.injEq] at h
    subst h
    rw [print1_fs, print1_fs]
    exact h1
  · rw [Bool.not_eq_true] at h1
    by_cases h2 : fsExists st.fs [".env.example"] = true
    · left
      simp only [setup_environment_file, print1_fs, h1, Bool.false_eq_true, if_false, h2,
        if_true] at h
      cases hc : copyFile (print1 "🔧 Setting up environment file..." st) [".env.example"]
          [".env"] with
      | error p => simp only [hc] at h; exact Except.noConfusion h
      | ok stc =>
        simp only [hc, Except.ok.injEq] at h
        subst h
        rw [print1_fs, print1_fs]
        exact copyFile_ok_dst _ stc _ _ hc
    · right
      rw [Bool.not_eq_true] at h2
      rw [sEF_nothing st h1 h2, Except.ok.injEq] at h
      subst h
      constructor <;> (rw [print1_fs, print1_fs]; assumption)

theorem cCC_exists_skip (st : St) (h : fsExists st.fs [".claude", "CLAUDE.md"] = true) :
    create_claude_config st = Except.ok
      (print1 "✅ Claude configuration already exists"
        (print1 "🤖 Setting up Claude configuration..." st)) := by
  simp only [create_claude_config, print1_fs, h, if_true]

theorem cCC_ok_cfg (st s1 : St) (h : create_claude_config st = Except.ok s1) :
    fsExists s1.fs [".claude", "CLAUDE.md"] = true := by
  by_cases hex : fsExists st.fs [".claude", "CLAUDE.md"] = true
  · rw [cCC_exists_skip st hex, Except.ok.injEq] at h
    subst h
    rw [print1_fs, print1_fs]
    exact hex
  · rw [Bool.not_eq_true] at hex
    simp only [create_claude_config, print1_fs, hex, Bool.false_eq_true, if_false,
      writeText] at h
    cases hp : parentOk st.fs [".claude", "CLAUDE.md"] with
    | false =>
      simp only [hp, Bool.false_eq_true, if_false] at h
      exact Except.noConfusion h
    | true =>
      simp only [hp, if_true] at h
      cases hd : fsLookup st.fs [".claude", "CLAUDE.md"] with
      | some e =>
        rw [fsExists, hd] at hex
        exact absurd hex (by simp)
      | none =>
        simp only [hd, Except.ok.injEq] at h
        subst h
        rw [print1_fs]
        simp [fsExists, fsLookup_fsSet]

theorem dirLoop_skip_all (st : St)
    (hdirs : ∀ d ∈ directoriesList, fsLookup st.fs [d] = some Entry.dir)
    (hsrc : (fsLookup st.fs ["src", "__init__.py"]).isSome = true)
    (htests : (fsLookup st.fs ["tests", "__init__.py"]).isSome = true) :
    dirLoop directoriesList st = Except.ok st := by
  have l1 := dirStep_skip "src" st (hdirs "src" (by simp [directoriesList])) (fun _ => hsrc)
  have l2 := dirStep_skip "tests" st (hdirs "tests" (by simp [directoriesList])) (fun _ => htests)
  have l3 := dirStep_skip "scripts" st (hdirs "scripts" (by simp [directoriesList]))
    (fun hc => absurd hc (by decide))
  have l4 := dirStep_skip "data" st (hdirs "data" (by simp [directoriesList]))
    (fun hc => absurd hc (by decide))
  have l5 := dirStep_skip ".claude" st (hdirs ".claude" (by simp [directoriesList]))
    (fun hc => absurd hc (by decide))
  simp only [directoriesList, dirLoop, l1, l2, l3, l4, l5]

/-- C6: each of the four file/directory-creating setup steps is idempotent
on the filesystem: when a step returns normally, running it again from the
result returns normally and leaves the filesystem exactly as after the
first run. -/
theorem setup_steps_idempotent (env : Env) (st : St) :
    (∀ s1, create_virtual_environment env st = Except.ok s1 →
      ∃ s2, create_virtual_environment env s1 = Except.ok s2 ∧ s2.fs = s1.fs)
    ∧ (∀ s1, setup_environment_file st = Except.ok s1 →
      ∃ s2, setup_environment_file s1 = Except.ok s2 ∧ s2.fs = s1.fs)
    ∧ (∀ s1, create_project_directories st = Except.ok s1 →
      ∃ s2, create_project_directories s1 = Except.ok s2 ∧ s2.fs = s1.fs)
    ∧ (∀ s1, create_claude_config st = Except.ok s1 →
      ∃ s2, create_claude_config s1 = Except.ok s2 ∧ s2.fs = s1.fs) := by
  refine ⟨?_, ?_, ?_, ?_⟩
  · intro s1 h
    exact ⟨_, cvE_exists_skip env s1 (cvE_ok_venv env st s1 h), rfl⟩
  · intro s1 h
    rcases sEF_ok_cases st s1 h with hy | ⟨hn1, hn2⟩
    · exact ⟨_, sEF_env_exists s1 hy, rfl⟩
    · exact ⟨_, sEF_nothing s1 hn1 hn2, rfl⟩
  · intro s1 h
    obtain ⟨hdirs, hsrc, htests⟩ := cPD_ok_state st s1 h
    refine ⟨print1 "✅ Project directories created"
      (print1 "📁 Creating project directories..." s1), ?_, rfl⟩
    have hloop := dirLoop_skip_all (print1 "📁 Creating project directories..." s1)
      (by intro d hd; rw [print1_fs]; exact hdirs d hd)
      (by rw [print1_fs]; exact hsrc)
      (by rw [print1_fs]; exact htests)
    simp only [create_project_directories, hloop]
  · intro s1 h
    exact ⟨_, cCC_exists_skip s1 (cCC_ok_cfg st s1 h), rfl⟩

/-- Witness for C6: each step run twice from a concrete state in which all
targets exist; the second run keeps the first run's filesystem. -/
theorem setup_steps_idempotent_witness :
    (∃ s2, create_virtual_environment envAllOk
        (getOk (create_virtual_environment envAllOk stAll)) = Except.ok s2
        ∧ s2.fs = (getOk (create_virtual_environment envAllOk stAll)).fs)
    ∧ (∃ s2, setup_environment_file (getOk (setup_environment_file stAll)) = Except.ok s2
        ∧ s2.fs = (getOk (setup_environment_file stAll)).fs)
    ∧ (∃ s2, create_project_directories (getOk (create_project_directories stAll)) = Except.ok s2
        ∧ s2.fs = (getOk (create_project_directories stAll)).fs)
    ∧ (∃ s2, create_claude_config (getOk (create_claude_config stAll)) = Except.ok s2
        ∧ s2.fs = (getOk (create_claude_config stAll)).fs) :=
  ⟨(setup_steps_idempotent envAllOk stAll).1
      (getOk (create_virtual_environment envAllOk stAll)) (by decide),
   (setup_steps_idempotent envAllOk stAll).2.1
      (getOk (setup_environment_file stAll)) (by decide),
   (setup_steps_idempotent envAllOk stAll).2.2.1
      (getOk (create_project_directories stAll)) (by decide),
   (setup_steps_idempotent envAllOk stAll).2.2.2
      (getOk (create_claude_config stAll)) (by decide)⟩

/-- C4: get_pip_command returns a string ending in the path components
`Scripts` then `pip` when the OS is exactly Windows, and `bin` then `pip`
for every other OS value (stated as a suffix of the character list of the
returned string). -/
theorem get_pip_command_platform_path (osType : String) :
    (osType = "Windows" → "Scripts/pip".data <:+ (get_pip_command osType).data)
    ∧ (osType ≠ "Windows" → "bin/pip".data <:+ (get_pip_command osType).data) := by
  constructor
  · intro h
    rw [get_pip_command, if_pos h]
    decide
  · intro h
    rw [get_pip_command, if_neg h]
    decide

/-- Witness for C4: both branches evaluated at concrete OS names. -/
theorem get_pip_command_platform_path_witness :
    ("Scripts/pip".data <:+ (get_pip_command "Windows").data)
    ∧ ("bin/pip".data <:+ (get_pip_command "Linux").data) :=
  ⟨(get_pip_command_platform_path "Windows").1 rfl,
   (get_pip_command_platform_path "Linux").2 (by decide)⟩
